import Mathlib

/-!
Shallow embedding of the escalation-aware chat session engine of
`src/src/pages/ConsumerChat.tsx`:

* the transient per-session state (React `useState` hooks of `ConsumerChat`),
* the Record Store contents touched by the engine (`products`, `businesses`,
  `chatLogs`, `escalations` tables of `blink.db`),
* the three operations: `loadProductData` (session bootstrap, lines 63-137),
  `sendMessage` (lines 148-216) and `handleFeedback` (lines 218-264).

Modelling conventions:

* `Date.now()` timestamps are passed in as a `Nat` parameter `now`; record
  identifiers built with string interpolation (`user_${Date.now()}`, ...) are
  modelled with `toString`.
* `db.chatLogs` is kept newest-first: `blink.db.chatLogs.create` conses at the
  head, which models the `orderBy: { timestamp: 'desc' }` queries because
  `Date.now()` is monotone across the creates of a run.
* The outcome of the external Response Generator (`blink.ai.generateText`) is a
  `GenResult` parameter; the outcome of the `chatLogs.create` persistence write
  is a Boolean parameter `logWriteOk` (the code wraps both in one `try`).
* SQLite-backed booleans on chat logs are the strings "1"/"0", unset logs have
  no value, exactly as the code writes `isHelpful: isHelpful ? "1" : "0"` and
  filters on `isHelpful: "0"`.
-/

/-- `Product` record as read by `ConsumerChat` (interface at lines 22-30). -/
structure Product where
  id : String
  name : String
  description : String
  price : Option Int
  manualPdfUrl : String
  chosenModel : String
  businessId : String
deriving DecidableEq, Repr

/-- `Business` record (interface at lines 32-37). -/
structure Business where
  id : String
  name : String
  emailSupport : String
  phoneSupport : String
deriving DecidableEq, Repr

/-- Role of a display message: `'user' | 'ai'` (line 41). -/
inductive MsgType where
  | user
  | ai
deriving DecidableEq, Repr

/-- `ChatMessage` display message (interface at lines 39-45); `isHelpful` is
the optional helpfulness mark set by `handleFeedback`. -/
structure ChatMessage where
  id : String
  type : MsgType
  content : String
  timestamp : Nat
  isHelpful : Option Bool := none
deriving DecidableEq, Repr

/-- Persisted `chatLogs` record, created at lines 189-196; `isHelpful` is unset
at creation and later written as the string "1" or "0" (line 235). -/
structure ChatLog where
  id : String
  productId : String
  question : String
  response : String
  timestamp : Nat
  sessionId : String
  isHelpful : Option String := none
deriving DecidableEq, Repr

/-- Persisted `escalations` record, created at lines 247-252. -/
structure Escalation where
  id : String
  productId : String
  reason : String
  status : String
deriving DecidableEq, Repr

/-- The Record Store tables the chat engine touches. `chatLogs` is kept
newest-first (see module conventions). -/
structure DB where
  products : List Product
  businesses : List Business
  chatLogs : List ChatLog
  escalations : List Escalation
deriving DecidableEq, Repr

/-- The transient per-session state: the `useState` hooks of `ConsumerChat`
(lines 49-57). `loading` starts true and is cleared in the bootstrap
`finally`; `sessionId` is fixed at session start (line 57). -/
structure SessionState where
  product : Option Product
  business : Option Business
  messages : List ChatMessage
  inputMessage : String
  loading : Bool
  sending : Bool
  showEscalation : Bool
  unhelpfulCount : Nat
  sessionId : String
deriving DecidableEq, Repr

/-- Initial hook values (lines 49-57): everything empty, `loading = true`,
`unhelpfulCount = 0`, `showEscalation = false`. -/
def initialSession (sessionId : String) : SessionState :=
  { product := none
    business := none
    messages := []
    inputMessage := ""
    loading := true
    sending := false
    showEscalation := false
    unhelpfulCount := 0
    sessionId := sessionId }

/-- Id of the synthetic welcome message (line 121). -/
def WELCOME_ID : String := "welcome"

/-- Welcome text of line 123 (pure function of the product name). -/
def welcomeContent (name : String) : String :=
  "Hello! I am here to help you with " ++ name ++
    ". I can answer questions based on the product manual. What would you like to know?"

/-- Bootstrap query predicate of lines 108-113: chat logs of this product
whose `isHelpful` flag is the string "0" (unhelpful). -/
def isUnhelpfulLog (productId : String) (l : ChatLog) : Bool :=
  l.productId == productId && l.isHelpful == some "0"

/-- `loadProductData` (lines 63-137): fetch the product (`limit 1`); if none,
return with `product = none` and no messages (the component then renders the
not-found card, lines 281-295). Otherwise fetch the business (a missing one is
tolerated), count persisted unhelpful chat logs of the product and set
`showEscalation` when that count is at least 20 (lines 108-117), then seed the
message list with the welcome message. `unhelpfulCount` keeps its initial hook
value 0 — the code never writes it during bootstrap. -/
def loadProductData (db : DB) (productId : String) (sessionId : String)
    (now : Nat) : SessionState :=
  let productData := (db.products.filter (fun p => p.id == productId)).take 1
  match productData with
  | [] => { initialSession sessionId with loading := false }
  | prod :: _ =>
    let businessData := (db.businesses.filter (fun b => b.id == prod.businessId)).take 1
    let escalationCount := db.chatLogs.filter (isUnhelpfulLog productId)
    { product := some prod
      business := businessData.head?
      messages := [{ id := WELCOME_ID, type := .ai,
                     content := welcomeContent prod.name, timestamp := now }]
      inputMessage := ""
      loading := false
      sending := false
      showEscalation := decide (20 ≤ escalationCount.length)
      unhelpfulCount := 0
      sessionId := sessionId }

/-- Whether the component renders the not-found card instead of a chat
(lines 273-295: not loading and `product` is null). -/
def rendersNotFound (st : SessionState) : Bool :=
  !st.loading && st.product.isNone

/-- Model of JavaScript `String.prototype.trim` (used at lines 149 and 154):
strip whitespace from both ends. Defined over the character list so that it
evaluates in the kernel. -/
def trimString (s : String) : String :=
  String.mk (((s.data.dropWhile Char.isWhitespace).reverse.dropWhile
    Char.isWhitespace).reverse)

/-- Outcome of the external Response Generator call (line 173): either the
generated text, or a failure (throw / timeout). -/
inductive GenResult where
  | ok (text : String)
  | err
deriving DecidableEq, Repr

/-- User message appended optimistically at lines 151-158. -/
def mkUserMessage (st : SessionState) (now : Nat) : ChatMessage :=
  { id := "user_" ++ toString now
    type := .user
    content := trimString st.inputMessage
    timestamp := now }

/-- Assistant message carrying the generated text (lines 179-184). -/
def mkAiMessage (text : String) (now : Nat) : ChatMessage :=
  { id := "ai_" ++ toString now
    type := .ai
    content := text
    timestamp := now }

/-- Degraded apology message appended in the `catch` block (lines 200-205). -/
def mkErrorMessage (now : Nat) : ChatMessage :=
  { id := "error_" ++ toString now
    type := .ai
    content := "I apologize, but I am having trouble responding right now. Please try again or contact our support team."
    timestamp := now }

/-- Chat log persisted on success (lines 189-196). -/
def mkChatLog (product : Product) (question text : String) (sessionId : String)
    (now : Nat) : ChatLog :=
  { id := "chat_" ++ toString now
    productId := product.id
    question := question
    response := text
    timestamp := now
    sessionId := sessionId }

/-- `sendMessage` (lines 148-216). Guard (line 149): blank (trimmed-empty)
input, missing product or an in-flight send returns immediately. Otherwise the
user message is appended, the input cleared and `sending` set; on generator
success the assistant message is appended and then the chat log is created; a
throw of the generator — or of the create — lands in the `catch`, which
appends the apology message; `finally` clears `sending`. -/
def sendMessage (st : SessionState) (db : DB) (gen : GenResult)
    (logWriteOk : Bool) (now : Nat) : SessionState × DB :=
  if trimString st.inputMessage == "" || st.product.isNone || st.sending then (st, db)
  else
    match st.product with
    | none => (st, db)
    | some product =>
      let userMessage := mkUserMessage st now
      let st1 := { st with messages := st.messages ++ [userMessage]
                           inputMessage := ""
                           sending := true }
      match gen with
      | .err =>
        ({ st1 with messages := st1.messages ++ [mkErrorMessage now]
                    sending := false }, db)
      | .ok text =>
        let st2 := { st1 with messages := st1.messages ++ [mkAiMessage text now] }
        if logWriteOk then
          ({ st2 with sending := false },
           { db with chatLogs :=
               mkChatLog product userMessage.content text st.sessionId now :: db.chatLogs })
        else
          ({ st2 with messages := st2.messages ++ [mkErrorMessage now]
                      sending := false }, db)

/-- The in-store update of line 234: set the `isHelpful` flag of the log with
the given id. -/
def updateLogHelpful (logs : List ChatLog) (logId : String) (v : String) :
    List ChatLog :=
  logs.map (fun l => if l.id == logId then { l with isHelpful := some v } else l)

/-- Feedback-button render condition of line 402: an assistant message other
than the synthetic welcome message shows the thumbs buttons. -/
def feedbackEligible (m : ChatMessage) : Bool :=
  m.type == .ai && m.id != WELCOME_ID

/-- Escalation record created at lines 247-252 (`product?.id || ''`). -/
def mkEscalation (st : SessionState) (now : Nat) : Escalation :=
  { id := "esc_" ++ toString now
    productId := (st.product.map Product.id).getD ""
    reason := "unhelpful_responses"
    status := "pending" }

/-- `handleFeedback` (lines 218-264). Marks the matching display message
(lines 221-223, a no-match id marks nothing), then queries the 10 most recent
chat logs of the product and writes the flag on the most recent one
(lines 226-237) — no check relates that log, or any message, to `messageId`.
If the feedback is unhelpful the session counter is incremented, and whenever
the new count is at least 20 (`newCount >= 20`, line 243) the escalation flag
is set and a new escalation record is created. -/
def handleFeedback (st : SessionState) (db : DB) (messageId : String)
    (isHelpful : Bool) (now : Nat) : SessionState × DB :=
  let msgs := st.messages.map (fun msg =>
    if msg.id == messageId then { msg with isHelpful := some isHelpful } else msg)
  let prodId := (st.product.map Product.id).getD ""
  let chatLogs := (db.chatLogs.filter (fun l => l.productId == prodId)).take 10
  let db1 :=
    match chatLogs with
    | [] => db
    | l :: _ =>
      { db with chatLogs :=
          updateLogHelpful db.chatLogs l.id (if isHelpful then "1" else "0") }
  if !isHelpful then
    let newCount := st.unhelpfulCount + 1
    if 20 ≤ newCount then
      ({ st with messages := msgs
                 unhelpfulCount := newCount
                 showEscalation := true },
       { db1 with escalations := mkEscalation st now :: db1.escalations })
    else
      ({ st with messages := msgs, unhelpfulCount := newCount }, db1)
  else
    ({ st with messages := msgs }, db1)

/-- A user-driven step within a live session: typing a question and pressing
send, or clicking a feedback thumb. The generator outcome, the persistence
outcome and the clock are carried on the event. -/
inductive Event where
  | send (input : String) (gen : GenResult) (logWriteOk : Bool) (now : Nat)
  | feedback (messageId : String) (isHelpful : Bool) (now : Nat)
deriving DecidableEq, Repr

/-- One event applied to session and store. -/
def step (s : SessionState × DB) (e : Event) : SessionState × DB :=
  match e with
  | .send input gen logWriteOk now =>
    sendMessage { s.1 with inputMessage := input } s.2 gen logWriteOk now
  | .feedback messageId isHelpful now =>
    handleFeedback s.1 s.2 messageId isHelpful now

/-- A whole session run: the events folded over the bootstrapped state. -/
def runEvents (s : SessionState × DB) (evs : List Event) : SessionState × DB :=
  evs.foldl step s

/-- `n` consecutive unhelpful feedback clicks on the message `messageId`. -/
def runUnhelpful (messageId : String) (now : Nat) (s : SessionState × DB) :
    Nat → SessionState × DB
  | 0 => s
  | n + 1 =>
    let s' := runUnhelpful messageId now s n
    handleFeedback s'.1 s'.2 messageId false now

/-! ### Concrete fixtures used by witnesses and counterexamples -/

/-- A registered product (the "SmartKettle X" scenario of the spec). -/
def sampleProduct : Product :=
  { id := "p1", name := "SmartKettle X", description := "Boils water in 90 seconds",
    price := none, manualPdfUrl := "", chosenModel := "gpt4o", businessId := "b1" }

/-- The owning business. -/
def sampleBusiness : Business :=
  { id := "b1", name := "Kettle Co", emailSupport := "support@kettle.example",
    phoneSupport := "" }

/-- A persisted chat log of `sampleProduct` already marked unhelpful. -/
def unhelpfulLog (i : Nat) : ChatLog :=
  { id := "chat_" ++ toString i, productId := "p1", question := "q", response := "r",
    timestamp := i, sessionId := "old", isHelpful := some "0" }

/-- Store holding the sample product and business and no chat history. -/
def sampleDB : DB :=
  { products := [sampleProduct], businesses := [sampleBusiness],
    chatLogs := [], escalations := [] }

/-- Same store with 19 persisted unhelpful exchanges of the product. -/
def sampleDB19 : DB := { sampleDB with chatLogs := (List.range 19).map unhelpfulLog }

/-- Same store with 20 persisted unhelpful exchanges of the product. -/
def sampleDB20 : DB := { sampleDB with chatLogs := (List.range 20).map unhelpfulLog }

/-- A freshly bootstrapped session on the history-free store. -/
def sampleSession : SessionState := loadProductData sampleDB "p1" "s1" 0

/-- The sample session after one successful exchange. -/
def sampleChat : SessionState × DB :=
  sendMessage { sampleSession with inputMessage := "How long to boil?" } sampleDB
    (.ok "About 90 seconds per the manual.") true 7

/-! ### Helper lemmas (shared across the claim theorems) -/

theorem handleFeedback_product (st : SessionState) (db : DB) (mid : String)
    (h : Bool) (now : Nat) :
    (handleFeedback st db mid h now).1.product = st.product := by
  unfold handleFeedback
  cases hcl : (db.chatLogs.filter (fun l => l.productId == (st.product.map Product.id).getD "")).take 10 <;>
    cases h <;> simp [hcl] <;> split <;> rfl

theorem handleFeedback_unhelpfulCount_false (st : SessionState) (db : DB)
    (mid : String) (now : Nat) :
    (handleFeedback st db mid false now).1.unhelpfulCount = st.unhelpfulCount + 1 := by
  unfold handleFeedback
  cases hcl : (db.chatLogs.filter (fun l => l.productId == (st.product.map Product.id).getD "")).take 10 <;>
    simp [hcl] <;> split <;> rfl

theorem handleFeedback_showEscalation (st : SessionState) (db : DB)
    (mid : String) (h : Bool) (now : Nat) :
    (handleFeedback st db mid h now).1.showEscalation =
      (st.showEscalation || (!h && decide (20 ≤ st.unhelpfulCount + 1))) := by
  unfold handleFeedback
  cases hcl : (db.chatLogs.filter (fun l => l.productId == (st.product.map Product.id).getD "")).take 10 <;>
    cases h <;> simp [hcl] <;> split <;> simp [*]

theorem handleFeedback_escalations_false (st : SessionState) (db : DB)
    (mid : String) (now : Nat) :
    (handleFeedback st db mid false now).2.escalations =
      (if 20 ≤ st.unhelpfulCount + 1 then [mkEscalation st now] else []) ++ db.escalations := by
  unfold handleFeedback
  cases hcl : (db.chatLogs.filter (fun l => l.productId == (st.product.map Product.id).getD "")).take 10 <;>
    simp [hcl] <;> split <;> simp [*]

theorem handleFeedback_escalations_true (st : SessionState) (db : DB)
    (mid : String) (now : Nat) :
    (handleFeedback st db mid true now).2.escalations = db.escalations := by
  unfold handleFeedback
  cases hcl : (db.chatLogs.filter (fun l => l.productId == (st.product.map Product.id).getD "")).take 10 <;>
    simp [hcl]

theorem handleFeedback_messages (st : SessionState) (db : DB) (mid : String)
    (b : Bool) (now : Nat) :
    (handleFeedback st db mid b now).1.messages =
      st.messages.map (fun msg =>
        if msg.id == mid then { msg with isHelpful := some b } else msg) := by
  unfold handleFeedback
  cases hcl : (db.chatLogs.filter (fun l => l.productId == (st.product.map Product.id).getD "")).take 10 <;>
    cases b <;> simp [hcl] <;> split <;> rfl

theorem handleFeedback_chatLogs_cons (st : SessionState) (db : DB) (mid : String)
    (b : Bool) (now : Nat) (p : Product) (l : ChatLog) (rest : List ChatLog)
    (hp : st.product = some p)
    (hl : db.chatLogs.filter (fun x => x.productId == p.id) = l :: rest) :
    (handleFeedback st db mid b now).2.chatLogs =
      updateLogHelpful db.chatLogs l.id (if b then "1" else "0") := by
  unfold handleFeedback
  cases b <;> (simp [hp, hl]; try (split <;> rfl))

theorem mkEscalation_congr (st st' : SessionState) (now : Nat)
    (h : st'.product = st.product) : mkEscalation st' now = mkEscalation st now := by
  simp [mkEscalation, h]

theorem runUnhelpful_spec (st : SessionState) (db : DB) (mid : String) (now : Nat)
    (h0 : st.unhelpfulCount = 0) (h1 : st.showEscalation = false) (n : Nat) :
    (runUnhelpful mid now (st, db) n).1.unhelpfulCount = n ∧
    (runUnhelpful mid now (st, db) n).1.showEscalation = decide (20 ≤ n) ∧
    (runUnhelpful mid now (st, db) n).1.product = st.product ∧
    (runUnhelpful mid now (st, db) n).2.escalations =
      List.replicate (n - 19) (mkEscalation st now) ++ db.escalations := by
  induction n with
  | zero => simp [runUnhelpful, h0, h1]
  | succ n ih =>
    obtain ⟨ihc, ihe, ihp, ihl⟩ := ih
    refine ⟨?_, ?_, ?_, ?_⟩
    · simp [runUnhelpful, handleFeedback_unhelpfulCount_false, ihc]
    · simp [runUnhelpful, handleFeedback_showEscalation, ihe, ihc]
      by_cases h : 20 ≤ n
      · simp [h, Nat.le_succ_of_le h]
        omega
      · simp [h]
    · simp [runUnhelpful, handleFeedback_product, ihp]
    · simp only [runUnhelpful, handleFeedback_escalations_false, ihl, ihc]
      rw [mkEscalation_congr _ _ _ ihp]
      by_cases h : 20 ≤ n + 1
      · have h19 : 19 ≤ n := by omega
        have hsub : n + 1 - 19 = (n - 19) + 1 := by omega
        simp [h, hsub, List.replicate_succ]
      · have hz : n + 1 - 19 = 0 := by omega
        have hz2 : n - 19 = 0 := by omega
        simp [h, hz, hz2]

theorem sendMessage_showEscalation (st : SessionState) (db : DB) (gen : GenResult)
    (lok : Bool) (now : Nat) :
    (sendMessage st db gen lok now).1.showEscalation = st.showEscalation := by
  unfold sendMessage
  split
  · rfl
  · cases hp : st.product with
    | none => simp
    | some p =>
      cases gen with
      | err => simp
      | ok t => by_cases hl : lok <;> simp [hl]

theorem sendMessage_success (st : SessionState) (db : DB) (text : String)
    (now : Nat) (p : Product) (hp : st.product = some p)
    (ht : trimString st.inputMessage ≠ "") (hs : st.sending = false) :
    (sendMessage st db (.ok text) true now).1.messages =
      st.messages ++ [mkUserMessage st now, mkAiMessage text now] ∧
    (sendMessage st db (.ok text) true now).2.chatLogs =
      mkChatLog p (trimString st.inputMessage) text st.sessionId now :: db.chatLogs := by
  unfold sendMessage
  simp [hp, hs, ht, mkUserMessage]

theorem sendMessage_genFailure (st : SessionState) (db : DB) (lok : Bool)
    (now : Nat) (p : Product) (hp : st.product = some p)
    (ht : trimString st.inputMessage ≠ "") (hs : st.sending = false) :
    (sendMessage st db .err lok now).1.messages =
      st.messages ++ [mkUserMessage st now, mkErrorMessage now] ∧
    (sendMessage st db .err lok now).2 = db := by
  unfold sendMessage
  simp [hp, hs, ht]

theorem sendMessage_persistFailure_lemma (st : SessionState) (db : DB) (text : String)
    (now : Nat) (p : Product) (hp : st.product = some p)
    (ht : trimString st.inputMessage ≠ "") (hs : st.sending = false) :
    (sendMessage st db (.ok text) false now).1.messages =
      st.messages ++ [mkUserMessage st now, mkAiMessage text now, mkErrorMessage now] ∧
    (sendMessage st db (.ok text) false now).2 = db := by
  unfold sendMessage
  simp [hp, hs, ht]

theorem feedbackEligible_mkErrorMessage (now : Nat) :
    feedbackEligible (mkErrorMessage now) = true := by
  simp [feedbackEligible, mkErrorMessage, WELCOME_ID]
  intro h
  have hd := congrArg String.data h
  simp [String.data_append] at hd

theorem map_feedback_of_not_mem (msgs : List ChatMessage) (mid : String) (b : Bool)
    (h : ∀ m ∈ msgs, m.id ≠ mid) :
    msgs.map (fun m => if m.id == mid then { m with isHelpful := some b } else m) = msgs := by
  induction msgs with
  | nil => rfl
  | cons x xs ih =>
    have hx : x.id ≠ mid := h x (by simp)
    have ih' := ih (fun m hm => h m (by simp [hm]))
    simp only [beq_iff_eq] at ih' ⊢
    simp [hx, ih']

theorem step_showEscalation_mono (s : SessionState × DB) (e : Event)
    (h : s.1.showEscalation = true) : (step s e).1.showEscalation = true := by
  cases e with
  | send input gen lok now =>
    show (sendMessage _ _ _ _ _).1.showEscalation = true
    rw [sendMessage_showEscalation]
    exact h
  | feedback mid ih now =>
    show (handleFeedback _ _ _ _ _).1.showEscalation = true
    rw [handleFeedback_showEscalation, h]
    rfl

theorem loadProductData_notFound (db : DB) (pid sid : String) (now : Nat)
    (h : db.products.filter (fun p => p.id == pid) = []) :
    (loadProductData db pid sid now).product = none ∧
    (loadProductData db pid sid now).messages = [] ∧
    rendersNotFound (loadProductData db pid sid now) = true := by
  unfold loadProductData
  simp [h, initialSession, rendersNotFound]

theorem loadProductData_found (db : DB) (pid sid : String) (now : Nat)
    (p : Product) (rest : List Product)
    (h : db.products.filter (fun q => q.id == pid) = p :: rest) :
    (loadProductData db pid sid now).product = some p ∧
    (loadProductData db pid sid now).showEscalation =
      decide (20 ≤ (db.chatLogs.filter (isUnhelpfulLog pid)).length) ∧
    (loadProductData db pid sid now).unhelpfulCount = 0 ∧
    (loadProductData db pid sid now).messages =
      [{ id := WELCOME_ID, type := .ai, content := welcomeContent p.name, timestamp := now }] := by
  unfold loadProductData
  simp [h]

/-! ### Claim theorems -/

/-- C1, counterexample: in a session bootstrapped with no prior unhelpful
history, the 20th `isHelpful=false` feedback flips the flag and writes one
Escalation record, but the 21st feedback call of the same session writes a
second record — the code guards the write with `newCount >= 20`, not with a
first-crossing test, so it is not true that no later feedback call in the
session creates another Escalation record. -/
theorem escalation_record_duplicated_after_threshold :
    (runUnhelpful "m" 9 (sampleSession, sampleDB) 19).1.showEscalation = false ∧
    (runUnhelpful "m" 9 (sampleSession, sampleDB) 20).1.showEscalation = true ∧
    (runUnhelpful "m" 9 (sampleSession, sampleDB) 20).2.escalations.length = 1 ∧
    (runUnhelpful "m" 9 (sampleSession, sampleDB) 21).2.escalations.length = 2 := by
  refine ⟨rfl, rfl, rfl, rfl⟩

/-- C1, amended: over a session whose counter starts at 0 with the flag down,
`n` unhelpful feedback submissions leave the flag raised exactly when
`20 ≤ n` (so the 20th call flips it and the 19th does not), and leave
`n - 19` new Escalation records (reason `unhelpful_responses`, status
`pending`) in the store: exactly one after the 20th call, but one more per
later unhelpful call in the same session. -/
theorem unhelpful_run_escalation_records (st : SessionState) (db : DB)
    (mid : String) (now : Nat)
    (h0 : st.unhelpfulCount = 0) (h1 : st.showEscalation = false) (n : Nat) :
    (runUnhelpful mid now (st, db) n).1.showEscalation = decide (20 ≤ n) ∧
    (runUnhelpful mid now (st, db) n).2.escalations =
      List.replicate (n - 19) (mkEscalation st now) ++ db.escalations ∧
    (mkEscalation st now).reason = "unhelpful_responses" ∧
    (mkEscalation st now).status = "pending" := by
  obtain ⟨-, he, -, hl⟩ := runUnhelpful_spec st db mid now h0 h1 n
  exact ⟨he, hl, rfl, rfl⟩

/-- Witness for C1's amended theorem at the sample session and `n = 20`. -/
theorem unhelpful_run_escalation_records_witness :
    (runUnhelpful "m" 9 (sampleSession, sampleDB) 20).1.showEscalation = decide (20 ≤ 20) ∧
    (runUnhelpful "m" 9 (sampleSession, sampleDB) 20).2.escalations =
      List.replicate (20 - 19) (mkEscalation sampleSession 9) ++ sampleDB.escalations ∧
    (mkEscalation sampleSession 9).reason = "unhelpful_responses" ∧
    (mkEscalation sampleSession 9).status = "pending" :=
  unhelpful_run_escalation_records sampleSession sampleDB "m" 9 rfl rfl 20

/-- C2: bootstrap on an identifier with no matching product produces no chat
session (`product = none`, no messages) and renders the not-found state; on a
matching product the escalation-visible flag is initialized true exactly when
at least 20 persisted chat logs of the product are marked unhelpful. -/
theorem bootstrap_notFound_and_escalation_threshold (db : DB) (pid sid : String)
    (now : Nat) :
    (db.products.filter (fun p => p.id == pid) = [] →
      (loadProductData db pid sid now).product = none ∧
      (loadProductData db pid sid now).messages = [] ∧
      rendersNotFound (loadProductData db pid sid now) = true) ∧
    (∀ p rest, db.products.filter (fun q => q.id == pid) = p :: rest →
      (loadProductData db pid sid now).product = some p ∧
      ((loadProductData db pid sid now).showEscalation = true ↔
        20 ≤ (db.chatLogs.filter (isUnhelpfulLog pid)).length)) := by
  constructor
  · intro h
    exact loadProductData_notFound db pid sid now h
  · intro p rest h
    obtain ⟨h1, h2, -, -⟩ := loadProductData_found db pid sid now p rest h
    refine ⟨h1, ?_⟩
    rw [h2]
    simp

/-- Witness for C2 at a missing identifier and at the 20-history store. -/
theorem bootstrap_notFound_and_escalation_threshold_witness :
    (loadProductData sampleDB "nope" "s1" 0).product = none ∧
    (loadProductData sampleDB20 "p1" "s1" 0).showEscalation = true := by
  refine ⟨((bootstrap_notFound_and_escalation_threshold sampleDB "nope" "s1" 0).1 rfl).1, ?_⟩
  exact ((bootstrap_notFound_and_escalation_threshold sampleDB20 "p1" "s1" 0).2
    sampleProduct [] rfl).2.mpr (by decide)

/-- C3, counterexample: in the session holding one persisted exchange,
feedback on the id `welcome` — the synthetic welcome message, which is not a
feedback-eligible assistant message — is anything but a no-op with a
`NotFound` signal: it sets the welcome DisplayMessage's helpfulness flag,
increments the unhelpful counter from 0 to 1, and flips the persisted
exchange's helpfulness flag to unhelpful. -/
theorem feedback_unknown_message_not_noop :
    (∀ m ∈ sampleChat.1.messages, m.id = "welcome" → feedbackEligible m = false) ∧
    sampleChat.1.messages.map ChatMessage.isHelpful = [none, none, none] ∧
    (handleFeedback sampleChat.1 sampleChat.2 "welcome" false 9).1.messages.map
      ChatMessage.isHelpful = [some false, none, none] ∧
    sampleChat.1.unhelpfulCount = 0 ∧
    (handleFeedback sampleChat.1 sampleChat.2 "welcome" false 9).1.unhelpfulCount = 1 ∧
    sampleChat.2.chatLogs.map ChatLog.isHelpful = [none] ∧
    (handleFeedback sampleChat.1 sampleChat.2 "welcome" false 9).2.chatLogs.map
      ChatLog.isHelpful = [some "0"] := by
  refine ⟨by decide, rfl, rfl, rfl, rfl, rfl, rfl⟩

/-- C3, amended: when `messageId` corresponds to no feedback-eligible
assistant message of the session, `handleFeedback` is not a no-op and signals
nothing (no `NotFound` exists in the code): any message carrying that id —
the welcome message or a user message included — still gets its helpfulness
flag set (the display messages are unchanged only when no message at all
carries the id), an unhelpful submission still increments the session
counter, and the most recent persisted chat log of the product still has its
helpfulness flag overwritten. -/
theorem feedback_unknown_message_updates_store (st : SessionState) (db : DB)
    (mid : String) (b : Bool) (now : Nat)
    (_hmid : ∀ m ∈ st.messages, m.id = mid → feedbackEligible m = false) :
    (handleFeedback st db mid b now).1.messages =
      st.messages.map (fun msg =>
        if msg.id == mid then { msg with isHelpful := some b } else msg) ∧
    ((∀ m ∈ st.messages, m.id ≠ mid) →
      (handleFeedback st db mid b now).1.messages = st.messages) ∧
    (handleFeedback st db mid false now).1.unhelpfulCount = st.unhelpfulCount + 1 ∧
    (∀ p l rest, st.product = some p →
      db.chatLogs.filter (fun x => x.productId == p.id) = l :: rest →
      (handleFeedback st db mid b now).2.chatLogs =
        updateLogHelpful db.chatLogs l.id (if b then "1" else "0")) := by
  refine ⟨handleFeedback_messages st db mid b now, ?_,
    handleFeedback_unhelpfulCount_false st db mid now, ?_⟩
  · intro hnone
    rw [handleFeedback_messages]
    exact map_feedback_of_not_mem st.messages mid b hnone
  · intro p l rest hp hl
    exact handleFeedback_chatLogs_cons st db mid b now p l rest hp hl

/-- Witness for C3's amended theorem, applied at the sample session both on
the non-eligible id `welcome` (present, so its flag is set) and on the absent
id `no-such-id` (messages unchanged). -/
theorem feedback_unknown_message_updates_store_witness :
    (handleFeedback sampleChat.1 sampleChat.2 "welcome" false 9).1.messages =
      sampleChat.1.messages.map (fun msg =>
        if msg.id == "welcome" then { msg with isHelpful := some false } else msg) ∧
    (handleFeedback sampleChat.1 sampleChat.2 "welcome" false 9).1.unhelpfulCount =
      sampleChat.1.unhelpfulCount + 1 ∧
    (handleFeedback sampleChat.1 sampleChat.2 "welcome" false 9).2.chatLogs =
      updateLogHelpful sampleChat.2.chatLogs
        (mkChatLog sampleProduct "How long to boil?" "About 90 seconds per the manual." "s1" 7).id
        "0" ∧
    (handleFeedback sampleChat.1 sampleChat.2 "no-such-id" false 9).1.messages =
      sampleChat.1.messages := by
  obtain ⟨h1, -, h2, h3⟩ := feedback_unknown_message_updates_store sampleChat.1 sampleChat.2
    "welcome" false 9 (by decide)
  obtain ⟨-, h4, -, -⟩ := feedback_unknown_message_updates_store sampleChat.1 sampleChat.2
    "no-such-id" false 9 (by decide)
  exact ⟨h1, h2, h3 sampleProduct
    (mkChatLog sampleProduct "How long to boil?" "About 90 seconds per the manual." "s1" 7)
    [] rfl rfl, h4 (by decide)⟩

/-- C4, counterexample: on the store with exactly 19 persisted unhelpful
exchanges of the product, the bootstrapped session's counter is 0 — not the
historical 19 — so a single further `isHelpful=false` submission leaves the
escalation flag down and creates no Escalation record, contradicting the
claimed seeding. -/
theorem bootstrap_counter_not_seeded :
    (sampleDB19.chatLogs.filter (isUnhelpfulLog "p1")).length = 19 ∧
    (loadProductData sampleDB19 "p1" "s1" 0).unhelpfulCount = 0 ∧
    (runUnhelpful "m" 9 (loadProductData sampleDB19 "p1" "s1" 0, sampleDB19) 1).1.showEscalation
      = false ∧
    (runUnhelpful "m" 9 (loadProductData sampleDB19 "p1" "s1" 0, sampleDB19) 1).2.escalations
      = [] := by
  refine ⟨rfl, rfl, rfl, rfl⟩

/-- C4, amended: the session counter starts at 0 — it is not seeded from the
persisted history. The bootstrap check raises the flag exactly when the
historical count is at least 20, and the in-session check raises it exactly
when the session-local counter reaches 20 — both use the constant 20 — so a
session starting with 19 persisted unhelpful exchanges needs 20 further
unhelpful submissions (not one) before it escalates. -/
theorem bootstrap_counter_starts_at_zero (db : DB) (pid sid mid : String)
    (now now2 : Nat) (p : Product) (rest : List Product)
    (hfind : db.products.filter (fun q => q.id == pid) = p :: rest) :
    (loadProductData db pid sid now).unhelpfulCount = 0 ∧
    (loadProductData db pid sid now).showEscalation =
      decide (20 ≤ (db.chatLogs.filter (isUnhelpfulLog pid)).length) ∧
    ((db.chatLogs.filter (isUnhelpfulLog pid)).length = 19 →
      (runUnhelpful mid now2 (loadProductData db pid sid now, db) 1).1.showEscalation = false ∧
      (runUnhelpful mid now2 (loadProductData db pid sid now, db) 20).1.showEscalation = true) ∧
    (∀ st' : SessionState, ∀ db' : DB, ∀ mid' : String, ∀ now' : Nat,
      (handleFeedback st' db' mid' false now').1.showEscalation =
        (st'.showEscalation || decide (20 ≤ st'.unhelpfulCount + 1))) := by
  obtain ⟨-, hesc, hcnt, -⟩ := loadProductData_found db pid sid now p rest hfind
  refine ⟨hcnt, hesc, ?_, ?_⟩
  · intro h19
    have hflag : (loadProductData db pid sid now).showEscalation = false := by
      rw [hesc, h19]
      rfl
    obtain ⟨-, he1, -, -⟩ := runUnhelpful_spec (loadProductData db pid sid now) db mid now2
      hcnt hflag 1
    obtain ⟨-, he20, -, -⟩ := runUnhelpful_spec (loadProductData db pid sid now) db mid now2
      hcnt hflag 20
    exact ⟨by rw [he1]; rfl, by rw [he20]; rfl⟩
  · intro st' db' mid' now'
    rw [handleFeedback_showEscalation]
    simp

/-- Witness for C4's amended theorem at the 19-history store. -/
theorem bootstrap_counter_starts_at_zero_witness :
    (loadProductData sampleDB19 "p1" "s1" 0).unhelpfulCount = 0 ∧
    (runUnhelpful "m" 9 (loadProductData sampleDB19 "p1" "s1" 0, sampleDB19) 20).1.showEscalation
      = true := by
  obtain ⟨h1, -, h3, -⟩ := bootstrap_counter_starts_at_zero sampleDB19 "p1" "s1" "m" 0 9
    sampleProduct [] rfl
  exact ⟨h1, (h3 rfl).2⟩

/-- C5, counterexample: after a generator failure in the sample session, the
degraded apology message (id `error_7`) is the last message, and it satisfies
the feedback-button render condition (assistant role, id other than
`welcome`) — so, contrary to the claim, the degraded message is
feedback-eligible. -/
theorem degraded_message_is_feedback_eligible :
    (sendMessage { sampleSession with inputMessage := "Hi" } sampleDB .err true 7).1.messages.map
      ChatMessage.id = ["welcome", "user_7", "error_7"] ∧
    (sendMessage { sampleSession with inputMessage := "Hi" } sampleDB .err true 7).1.messages.map
      feedbackEligible = [false, false, true] ∧
    (sendMessage { sampleSession with inputMessage := "Hi" } sampleDB .err true 7).2.chatLogs
      = [] := by
  refine ⟨rfl, rfl, rfl⟩

/-- C5, amended: when the generator throws, `sendMessage` appends the user
message and exactly one degraded apology assistant message, persists no
exchange and propagates nothing — but the degraded message does satisfy the
feedback-eligibility condition of the render (assistant role, id other than
`welcome`); and an empty generated text is not treated as a failure at all:
it follows the success path and persists an exchange with empty response. -/
theorem generator_failure_degraded_message (st : SessionState) (db : DB)
    (lok : Bool) (now : Nat) (p : Product) (hp : st.product = some p)
    (ht : trimString st.inputMessage ≠ "") (hs : st.sending = false) :
    (sendMessage st db .err lok now).1.messages =
      st.messages ++ [mkUserMessage st now, mkErrorMessage now] ∧
    (sendMessage st db .err lok now).2 = db ∧
    feedbackEligible (mkErrorMessage now) = true ∧
    (sendMessage st db (.ok "") true now).2.chatLogs =
      mkChatLog p (trimString st.inputMessage) "" st.sessionId now :: db.chatLogs := by
  obtain ⟨h1, h2⟩ := sendMessage_genFailure st db lok now p hp ht hs
  obtain ⟨-, h4⟩ := sendMessage_success st db "" now p hp ht hs
  exact ⟨h1, h2, feedbackEligible_mkErrorMessage now, h4⟩

/-- Witness for C5's amended theorem at the sample session. -/
theorem generator_failure_degraded_message_witness :
    (sendMessage { sampleSession with inputMessage := "Hi" } sampleDB .err true 7).1.messages =
      { sampleSession with inputMessage := "Hi" }.messages ++
        [mkUserMessage { sampleSession with inputMessage := "Hi" } 7, mkErrorMessage 7] ∧
    (sendMessage { sampleSession with inputMessage := "Hi" } sampleDB .err true 7).2 = sampleDB ∧
    feedbackEligible (mkErrorMessage 7) = true := by
  obtain ⟨h1, h2, h3, -⟩ := generator_failure_degraded_message
    { sampleSession with inputMessage := "Hi" } sampleDB true 7 sampleProduct rfl
    (by decide) rfl
  exact ⟨h1, h2, h3⟩

/-- C6, counterexample: in the sample session, when the generator succeeds
(`"Answer."`) but the chat-log write fails, the session ends the exchange
with the successful assistant message *and* a degraded apology message
(`error_7`) — the single `catch` covers the persistence write too — so the
assistant message is not the only message appended and an apology is added,
contrary to the claim. -/
theorem persist_failure_appends_apology :
    (sendMessage { sampleSession with inputMessage := "Hi" } sampleDB (.ok "Answer.") false
      7).1.messages.map ChatMessage.id = ["welcome", "user_7", "ai_7", "error_7"] ∧
    (sendMessage { sampleSession with inputMessage := "Hi" } sampleDB (.ok "Answer.") false
      7).2.chatLogs = [] := by
  refine ⟨rfl, rfl⟩

/-- C6, amended: when the generator succeeds but the chat-log write fails,
nothing is persisted and no failure propagates, but the `catch` shared with
the generator path appends a degraded apology message after the successful
assistant message (and shows the transient error notice): the exchange gains
three display messages, not two. -/
theorem persist_failure_behavior (st : SessionState) (db : DB) (text : String)
    (now : Nat) (p : Product) (hp : st.product = some p)
    (ht : trimString st.inputMessage ≠ "") (hs : st.sending = false) :
    (sendMessage st db (.ok text) false now).1.messages =
      st.messages ++ [mkUserMessage st now, mkAiMessage text now, mkErrorMessage now] ∧
    (sendMessage st db (.ok text) false now).2 = db :=
  sendMessage_persistFailure_lemma st db text now p hp ht hs

/-- Witness for C6's amended theorem at the sample session. -/
theorem persist_failure_behavior_witness :
    (sendMessage { sampleSession with inputMessage := "Hi" } sampleDB (.ok "Answer.") false
      7).1.messages =
      { sampleSession with inputMessage := "Hi" }.messages ++
        [mkUserMessage { sampleSession with inputMessage := "Hi" } 7, mkAiMessage "Answer." 7,
          mkErrorMessage 7] ∧
    (sendMessage { sampleSession with inputMessage := "Hi" } sampleDB (.ok "Answer.") false
      7).2 = sampleDB :=
  persist_failure_behavior { sampleSession with inputMessage := "Hi" } sampleDB "Answer." 7
    sampleProduct rfl (by decide) rfl

/-- C7: a successful `sendMessage` appends exactly the user message followed
by the assistant message carrying the generated text, and prepends exactly one
new chat log to the store whose question is the trimmed input, whose response
is the assistant message's text and which carries the session identifier. -/
theorem sendMessage_success_roundtrip (st : SessionState) (db : DB)
    (text : String) (now : Nat) (p : Product) (hp : st.product = some p)
    (ht : trimString st.inputMessage ≠ "") (hs : st.sending = false) :
    (sendMessage st db (.ok text) true now).1.messages =
      st.messages ++ [mkUserMessage st now, mkAiMessage text now] ∧
    (mkUserMessage st now).type = .user ∧
    (mkUserMessage st now).content = trimString st.inputMessage ∧
    (mkAiMessage text now).type = .ai ∧
    (mkAiMessage text now).content = text ∧
    (sendMessage st db (.ok text) true now).2.chatLogs =
      mkChatLog p (trimString st.inputMessage) text st.sessionId now :: db.chatLogs ∧
    (mkChatLog p (trimString st.inputMessage) text st.sessionId now).question =
      trimString st.inputMessage ∧
    (mkChatLog p (trimString st.inputMessage) text st.sessionId now).response = text ∧
    (mkChatLog p (trimString st.inputMessage) text st.sessionId now).sessionId =
      st.sessionId := by
  obtain ⟨h1, h2⟩ := sendMessage_success st db text now p hp ht hs
  exact ⟨h1, rfl, rfl, rfl, rfl, h2, rfl, rfl, rfl⟩

/-- Witness for C7 at the sample session's first exchange. -/
theorem sendMessage_success_roundtrip_witness :
    sampleChat.1.messages =
      { sampleSession with inputMessage := "How long to boil?" }.messages ++
        [mkUserMessage { sampleSession with inputMessage := "How long to boil?" } 7,
          mkAiMessage "About 90 seconds per the manual." 7] ∧
    sampleChat.2.chatLogs =
      mkChatLog sampleProduct "How long to boil?" "About 90 seconds per the manual."
        "s1" 7 :: sampleDB.chatLogs := by
  obtain ⟨h1, -, -, -, -, h6, -, -, -⟩ := sendMessage_success_roundtrip
    { sampleSession with inputMessage := "How long to boil?" } sampleDB
    "About 90 seconds per the manual." 7 sampleProduct rfl (by decide) rfl
  exact ⟨h1, h6⟩

/-- C8: the escalation-visible flag is monotone within a session: from any
session state in which it is true — in particular any state reached from
`loadProductData` by `sendMessage` and `handleFeedback` steps — no further
sequence of send or feedback events (helpful feedback included) ever makes it
false again. -/
theorem escalation_flag_monotone (st : SessionState) (db : DB)
    (evs : List Event) (h : st.showEscalation = true) :
    (runEvents (st, db) evs).1.showEscalation = true := by
  suffices H : ∀ s : SessionState × DB, s.1.showEscalation = true →
      (runEvents s evs).1.showEscalation = true from H (st, db) h
  induction evs with
  | nil => intro s hs; exact hs
  | cons e es ih =>
    intro s hs
    exact ih (step s e) (step_showEscalation_mono s e hs)

/-- Witness for C8: the session bootstrapped over 20 unhelpful historical
exchanges has the flag up, and it stays up across a helpful feedback click
followed by a successful exchange. -/
theorem escalation_flag_monotone_witness :
    (runEvents (loadProductData sampleDB20 "p1" "s1" 0, sampleDB20)
      [Event.feedback "welcome" true 9,
       Event.send "Hi" (.ok "Answer.") true 10]).1.showEscalation = true :=
  escalation_flag_monotone (loadProductData sampleDB20 "p1" "s1" 0) sampleDB20
    [Event.feedback "welcome" true 9, Event.send "Hi" (.ok "Answer.") true 10] rfl

/-- C9: `sendMessage` on blank (empty or whitespace-only) input, or while the
sending flag is up, returns the session and the store untouched, for every
generator outcome — no generator call is consumed and no chat log is
created. -/
theorem sendMessage_blank_or_sending_noop (st : SessionState) (db : DB)
    (h : trimString st.inputMessage = "" ∨ st.sending = true) :
    ∀ (gen : GenResult) (lok : Bool) (now : Nat),
      sendMessage st db gen lok now = (st, db) := by
  intro gen lok now
  unfold sendMessage
  rcases h with h | h <;> simp [h]

/-- Witness for C9 on whitespace-only input and on an in-flight session. -/
theorem sendMessage_blank_or_sending_noop_witness :
    sendMessage { sampleSession with inputMessage := "   " } sampleDB (.ok "X") true 7 =
      ({ sampleSession with inputMessage := "   " }, sampleDB) ∧
    sendMessage { sampleSession with inputMessage := "Hi", sending := true } sampleDB
        .err true 7 =
      ({ sampleSession with inputMessage := "Hi", sending := true }, sampleDB) := by
  constructor
  · exact sendMessage_blank_or_sending_noop _ sampleDB (Or.inl (by decide)) (.ok "X") true 7
  · exact sendMessage_blank_or_sending_noop _ sampleDB (Or.inr rfl) .err true 7

/-- C10: every `isHelpful=false` submission — regardless of which message id
it targets or whether that message already carries unhelpful feedback —
increments the session counter by exactly one and overwrites the helpfulness
flag of the single most recent persisted chat log of the product; hence, from
a fresh session, 20 repeated unhelpful submissions on the same assistant
message raise the escalation flag. -/
theorem feedback_counts_submissions (st : SessionState) (db : DB)
    (mid : String) (now : Nat) (p : Product) (l : ChatLog) (rest : List ChatLog)
    (hp : st.product = some p)
    (hl : db.chatLogs.filter (fun x => x.productId == p.id) = l :: rest) :
    (handleFeedback st db mid false now).1.unhelpfulCount = st.unhelpfulCount + 1 ∧
    (handleFeedback st db mid false now).2.chatLogs =
      updateLogHelpful db.chatLogs l.id "0" ∧
    (st.unhelpfulCount = 0 → st.showEscalation = false →
      (runUnhelpful mid now (st, db) 20).1.showEscalation = true) := by
  refine ⟨handleFeedback_unhelpfulCount_false st db mid now, ?_, ?_⟩
  · have h := handleFeedback_chatLogs_cons st db mid false now p l rest hp hl
    simpa using h
  · intro h0 h1
    obtain ⟨-, he, -, -⟩ := runUnhelpful_spec st db mid now h0 h1 20
    rw [he]
    rfl

/-- Witness for C10 at the sample session's assistant message `ai_7`. -/
theorem feedback_counts_submissions_witness :
    (handleFeedback sampleChat.1 sampleChat.2 "ai_7" false 9).1.unhelpfulCount =
      sampleChat.1.unhelpfulCount + 1 ∧
    (handleFeedback sampleChat.1 sampleChat.2 "ai_7" false 9).2.chatLogs =
      updateLogHelpful sampleChat.2.chatLogs
        (mkChatLog sampleProduct "How long to boil?" "About 90 seconds per the manual." "s1" 7).id
        "0" ∧
    (runUnhelpful "ai_7" 9 (sampleChat.1, sampleChat.2) 20).1.showEscalation = true := by
  obtain ⟨h1, h2, h3⟩ := feedback_counts_submissions sampleChat.1 sampleChat.2 "ai_7" 9
    sampleProduct
    (mkChatLog sampleProduct "How long to boil?" "About 90 seconds per the manual." "s1" 7)
    [] rfl rfl
  exact ⟨h1, h2, h3 rfl rfl⟩
